import Mathlib

/-!
Verification of the easyEmail backend against its specification.

Shallow embedding of the Python sources under `backend/`:
strings are lists of characters, Python `datetime` values are wall-clock
timestamps with an optional UTC offset, nullable columns are `Option`,
fallible paths return an explicit outcome type, and boundary systems
(the Gmail API, the LLM services, the pgvector store, Python's `re`
module) are abstracted as explicit oracle/outcome parameters that the
theorems quantify over.
-/

/-! ## Python strings -/

/-- Python `str`, embedded as a list of characters. -/
abbrev Str := List Char

/-- ASCII lower-casing of one character (model of Python `str.lower` on the
ASCII range, which is the range exercised by the engine's inputs). -/
def lowerChar (c : Char) : Char :=
  if 'A' ≤ c ∧ c ≤ 'Z' then Char.ofNat (c.toNat + 32) else c

/-- Python `s.lower()`. -/
def lowerStr (s : Str) : Str := s.map lowerChar

/-- Python `needle in hay` for strings (substring containment). -/
def strContainsSub (hay needle : Str) : Bool :=
  hay.tails.any fun t => needle.isPrefixOf t

/-- Python truthiness of an optional string: `None` and `""` are falsy. -/
def truthyS : Option Str → Bool
  | some (_ :: _) => true
  | _ => false

/-- Python `a or b or ""` on two optional strings. -/
def pyOr2 (a b : Option Str) : Str :=
  if truthyS a then a.getD [] else if truthyS b then b.getD [] else []

/-- Python `a or ""` on an optional string. -/
def pyOr1 (a : Option Str) : Str := if truthyS a then a.getD [] else []

/-- Python truthiness of an optional integer: `None` and `0` are falsy. -/
def truthyI : Option Int → Bool
  | some n => n != 0
  | none => false

/-- Python `k or d` on an optional count (`None` and `0` fall back to `d`). -/
def pyOrNat (k : Option Nat) (d : Nat) : Nat :=
  match k with
  | some n => if n ≠ 0 then n else d
  | none => d

/-! ## Python datetimes

A `datetime` value is its wall-clock reading (seconds on the proleptic
Gregorian calendar, via the standard days-from-civil conversion) together
with an optional UTC offset; `tz = none` is a naive datetime. -/

structure PyDatetime where
  wall : Int
  tz : Option Int
  deriving DecidableEq, Repr

/-- Days from 1970-01-01 of a civil date (standard civil-calendar formula;
used for years ≥ 1, where all divisions are on nonnegative operands). -/
def daysFromCivil (y m d : Int) : Int :=
  let y := y - (if m ≤ 2 then 1 else 0)
  let era := (if 0 ≤ y then y else y - 399) / 400
  let yoe := y - era * 400
  let mp := (m + 9) % 12
  let doy := (153 * mp + 2) / 5 + d - 1
  let doe := yoe * 365 + yoe / 4 - yoe / 100 + doy
  era * 146097 + doe - 719468

/-- Wall-clock seconds of a civil date-time. -/
def wallSeconds (y m d h mi s : Int) : Int :=
  ((daysFromCivil y m d * 24 + h) * 60 + mi) * 60 + s

/-- Convenience constructor for a midnight datetime. -/
def dtAt (y m d : Int) (tz : Option Int) : PyDatetime :=
  ⟨wallSeconds y m d 0 0 0, tz⟩

/-- `received_at.replace(tzinfo=None)`. -/
def dtStripTz (d : PyDatetime) : PyDatetime := { d with tz := none }

/-- Python `a < b` on datetimes. Comparing a naive and an aware datetime
raises `TypeError`, modelled as `none`. -/
def dtLt (a b : PyDatetime) : Option Bool :=
  match a.tz, b.tz with
  | none, none => some (decide (a.wall < b.wall))
  | some x, some y => some (decide (a.wall - x < b.wall - y))
  | _, _ => none

/-- Python `a > b` on datetimes; `none` models the naive/aware `TypeError`. -/
def dtGt (a b : PyDatetime) : Option Bool :=
  match a.tz, b.tz with
  | none, none => some (decide (b.wall < a.wall))
  | some x, some y => some (decide (b.wall - y < a.wall - x))
  | _, _ => none

/-! ### `datetime.fromisoformat`

Model of the stdlib parser on the grammar
`YYYY-MM-DD[{T,space}HH:MM[:SS][±HH:MM]]`; every other input is a
`ValueError`, modelled as `none`. -/

/-- Decimal value of a digit character. -/
def digitVal (c : Char) : Option Nat :=
  if c.isDigit then some (c.toNat - 48) else none

/-- Two-digit decimal number. -/
def digits2 (a b : Char) : Option Nat := do
  let x ← digitVal a
  let y ← digitVal b
  pure (x * 10 + y)

/-- Four-digit decimal number. -/
def digits4 (a b c d : Char) : Option Nat := do
  let x ← digits2 a b
  let y ← digits2 c d
  pure (x * 100 + y)

/-- Length of a month, with leap years. -/
def daysInMonth (y m : Nat) : Nat :=
  if m = 2 then
    if y % 4 = 0 ∧ (y % 100 ≠ 0 ∨ y % 400 = 0) then 29 else 28
  else if m = 4 ∨ m = 6 ∨ m = 9 ∨ m = 11 then 30
  else 31

/-- Parse a trailing UTC offset: empty means naive, `±HH:MM` gives the
offset in seconds, anything else is a `ValueError`. -/
def parseOffset (cs : Str) : Option (Option Int) :=
  match cs with
  | [] => some none
  | [sg, a, b, ':', c, d] => do
      let h ← digits2 a b
      let mi ← digits2 c d
      if h ≤ 23 ∧ mi ≤ 59 then
        if sg = '+' then some (some ((h * 60 + mi) * 60))
        else if sg = '-' then some (some (-((h * 60 + mi : Nat) : Int)))
        else none
      else none
  | _ => none

/-- Parse the time-of-day part `HH:MM[:SS][offset]`. -/
def parseTime (cs : Str) : Option (Nat × Nat × Nat × Option Int) :=
  match cs with
  | h1 :: h2 :: ':' :: m1 :: m2 :: rest => do
      let h ← digits2 h1 h2
      let mi ← digits2 m1 m2
      if h ≤ 23 ∧ mi ≤ 59 then
        match rest with
        | ':' :: s1 :: s2 :: rest' => do
            let s ← digits2 s1 s2
            let tz ← parseOffset rest'
            if s ≤ 59 then pure (h, mi, s, tz) else none
        | _ => do
            let tz ← parseOffset rest
            pure (h, mi, 0, tz)
      else none
  | _ => none

/-- `datetime.fromisoformat` on the supported grammar. -/
def fromisoformat (s : Str) : Option PyDatetime :=
  match s with
  | y1 :: y2 :: y3 :: y4 :: '-' :: m1 :: m2 :: '-' :: d1 :: d2 :: rest => do
      let y ← digits4 y1 y2 y3 y4
      let m ← digits2 m1 m2
      let d ← digits2 d1 d2
      if 1 ≤ y ∧ 1 ≤ m ∧ m ≤ 12 ∧ 1 ≤ d ∧ d ≤ daysInMonth y m then
        match rest with
        | [] => pure (dtAt y m d none)
        | sep :: timePart =>
            if sep = 'T' ∨ sep = ' ' then do
              let (h, mi, sec, tz) ← parseTime timePart
              pure ⟨wallSeconds y m d h mi sec, tz⟩
            else none
      else none
  | _ => none

/-- Python `s.replace("Z", "+00:00")`. -/
def replaceZ (s : Str) : Str :=
  s.flatMap fun c => if c = 'Z' then ['+', '0', '0', ':', '0', '0'] else [c]

/-! ## Data model

Row shapes for the relational entities.  `users`, `email_accounts`,
`emails`, `drafts` and `email_embeddings` are declared in
`backend/db/models.py`; the `Rule` and `Log` tables are referenced
throughout `crud.py`, `schemas.py` and `rule_engine.py` but their class
declarations are not present under `src/backend/db/models.py`, so their
row shapes below are modelled from the spec (§3). -/

/-- `EmailStatus` enum from `models.py`. -/
inductive EmailStatus where
  | unread | read | archived | deleted
  deriving DecidableEq, Repr

/-- `ClassificationCategory` enum from `models.py`. -/
inductive Category where
  | urgent | important | normal | spam | promotion
  deriving DecidableEq, Repr

/-- `ClassificationCategory(value)` constructor: `none` models the
`ValueError` raised on an unknown literal. -/
def parseCategory (s : Str) : Option Category :=
  if s = "urgent".data then some .urgent
  else if s = "important".data then some .important
  else if s = "normal".data then some .normal
  else if s = "spam".data then some .spam
  else if s = "promotion".data then some .promotion
  else none

/-- `category.value` of a `ClassificationCategory` member. -/
def categoryValue : Category → Str
  | .urgent => "urgent".data
  | .important => "important".data
  | .normal => "normal".data
  | .spam => "spam".data
  | .promotion => "promotion".data

/-- A row of the `emails` table (`models.Email`); the owning account's
provider is `GMAIL`, the only member of the `EmailProvider` enum. -/
structure EmailRow where
  id : Nat
  account_id : Nat
  provider_message_id : Str
  thread_id : Option Str := none
  subject : Option Str := none
  sender : Option Str := none
  sender_email : Option Str := none
  body_text : Option Str := none
  body_html : Option Str := none
  received_at : Option PyDatetime := none
  status : EmailStatus := .unread
  category : Option Category := none
  classification_confidence : Option Int := none
  is_important : Bool := false
  deriving DecidableEq, Repr

/-- A row of the `drafts` table (`models.Draft`). -/
structure DraftRow where
  id : Nat
  email_id : Nat
  subject : Option Str := none
  body : Str
  provider_draft_id : Option Str := none
  is_sent : Bool := false
  deriving DecidableEq, Repr

/-- One operator group of a rule's `conditions` JSON (the `sender` /
`subject` / `body` sub-objects).  A field is `some` when the key is
present in the stored dict.  `none` at the group level models a key that
is absent or holds a falsy value (`None` / `{}`), which the check
functions treat as vacuously true. -/
structure CondGroup where
  contains : Option Str := none
  equals : Option Str := none
  starts_with : Option Str := none
  ends_with : Option Str := none
  regex : Option Str := none
  deriving DecidableEq, Repr

/-- The `date_range` sub-object of a rule's `conditions` JSON. -/
structure DateCond where
  after : Option Str := none
  before : Option Str := none
  deriving DecidableEq, Repr

/-- A rule's `conditions` JSON object.  The surrounding `Option` at the
rule level models a falsy value (`None` or the empty dict `{}`); a value
with all four groups `none` models a truthy dict none of whose recognized
keys carries a condition. -/
structure RuleConditions where
  sender : Option CondGroup := none
  subject : Option CondGroup := none
  body : Option CondGroup := none
  date_range : Option DateCond := none
  deriving DecidableEq, Repr

/-- `RuleAction` string-enum literals.  Modelled from the spec: the enum
declaration is missing from `src/backend/db/models.py`; the spec (§3, §4.23)
names the members `CLASSIFY`, `FORWARD`, `REMIND`, and the stored JSON
values follow the lower-case convention of the other string enums. -/
def raCLASSIFY : Str := "classify".data

/-- `RuleAction.FORWARD` stored literal (modelled from the spec, see
`raCLASSIFY`). -/
def raFORWARD : Str := "forward".data

/-- `RuleAction.REMIND` stored literal (modelled from the spec, see
`raCLASSIFY`). -/
def raREMIND : Str := "remind".data

/-- A rule's `actions` JSON object; fields are the keys read by
`RuleEngine.execute_rule_actions`. -/
structure RuleActions where
  type : Option Str := none
  category : Option Str := none
  mark_important : Bool := false
  generate_draft : Bool := false
  use_rag_context : Bool := false
  tone : Option Str := none
  length : Option Str := none
  forward_to : Option Str := none
  remind_after_hours : Option Int := none
  deriving DecidableEq, Repr

/-- A row of the `rules` table.  Modelled from the spec (§3): the class
declaration is missing from `src/backend/db/models.py`, while `crud.py`
and `rule_engine.py` operate on exactly these fields. -/
structure RuleRow where
  id : Nat
  name : Str
  is_active : Bool := true
  priority : Int := 0
  created_at : Int := 0
  conditions : Option RuleConditions := none
  actions : Option RuleActions := none
  match_count : Nat := 0
  last_matched_at : Option PyDatetime := none
  deriving DecidableEq, Repr

/-- A row of the `logs` table.  Modelled from the spec (§3): the class
declaration is missing from `src/backend/db/models.py`; `crud.create_log`
writes exactly these fields. -/
structure LogRow where
  level : Str
  module : Option Str := none
  action : Option Str := none
  message : Str
  deriving DecidableEq, Repr

/-! ## Rule engine (`backend/services/rule_engine.py`)

`re.search` is a boundary (Python's regex engine); it is abstracted as an
oracle from pattern and text to `Option Bool`, where `none` models a
`re.error` raised for a malformed pattern. -/

/-- Oracle for `re.search(pattern, text, re.IGNORECASE)`; `none` models
`re.error`. -/
abbrev RegexOracle := Str → Str → Option Bool

/-- `RuleEngine._check_sender_condition`. -/
def check_sender_condition (o : RegexOracle) (email : EmailRow)
    (condition : Option CondGroup) : Bool :=
  match condition with
  | none => true
  | some c =>
    let sender := pyOr2 email.sender_email email.sender
    let sender_lower := lowerStr sender
    match c.contains with
    | some v => strContainsSub sender_lower (lowerStr v)
    | none =>
      match c.equals with
      | some v => sender_lower == lowerStr v
      | none =>
        match c.starts_with with
        | some v => (lowerStr v).isPrefixOf sender_lower
        | none =>
          match c.ends_with with
          | some v => (lowerStr v).isSuffixOf sender_lower
          | none =>
            match c.regex with
            | some pat =>
              match o pat sender with
              | some b => b
              | none => false
            | none => true

/-- `RuleEngine._check_subject_condition` (no `ends_with` operator for
this field). -/
def check_subject_condition (o : RegexOracle) (email : EmailRow)
    (condition : Option CondGroup) : Bool :=
  match condition with
  | none => true
  | some c =>
    let subject := pyOr1 email.subject
    let subject_lower := lowerStr subject
    match c.contains with
    | some v => strContainsSub subject_lower (lowerStr v)
    | none =>
      match c.equals with
      | some v => subject_lower == lowerStr v
      | none =>
        match c.starts_with with
        | some v => (lowerStr v).isPrefixOf subject_lower
        | none =>
          match c.regex with
          | some pat =>
            match o pat subject with
            | some b => b
            | none => false
          | none => true

/-- `RuleEngine._check_body_condition` (`contains` and `regex` only). -/
def check_body_condition (o : RegexOracle) (email : EmailRow)
    (condition : Option CondGroup) : Bool :=
  match condition with
  | none => true
  | some c =>
    let body := lowerStr (pyOr2 email.body_text email.body_html)
    match c.contains with
    | some v => strContainsSub body (lowerStr v)
    | none =>
      match c.regex with
      | some pat =>
        match o pat body with
        | some b => b
        | none => false
      | none => true

/-- `RuleEngine._check_date_range_condition`.  Both the `ValueError` from
`fromisoformat` and the `TypeError` from a naive/aware comparison land in
the surrounding `except (ValueError, TypeError): pass`, which skips the
bound. -/
def check_date_range_condition (email : EmailRow)
    (condition : Option DateCond) : Bool :=
  match condition with
  | none => true
  | some c =>
    match email.received_at with
    | none => false
    | some received =>
      let afterOk :=
        match c.after with
        | none => true
        | some s =>
          match fromisoformat (replaceZ s) with
          | none => true
          | some after_date =>
            match dtLt (dtStripTz received) after_date with
            | none => true
            | some lt => !lt
      if !afterOk then false
      else
        match c.before with
        | none => true
        | some s =>
          match fromisoformat (replaceZ s) with
          | none => true
          | some before_date =>
            match dtGt (dtStripTz received) before_date with
            | none => true
            | some gt => !gt

/-- `RuleEngine.evaluate_rule`. -/
def evaluate_rule (o : RegexOracle) (email : EmailRow) (rule : RuleRow) : Bool :=
  if !rule.is_active then false
  else
    match rule.conditions with
    | none => false
    | some c =>
      if !check_sender_condition o email c.sender then false
      else if !check_subject_condition o email c.subject then false
      else if !check_body_condition o email c.body then false
      else if !check_date_range_condition email c.date_range then false
      else true

/-! ## Rule execution (`RuleEngine.execute_rule_actions`)

The LLM-backed draft generators are boundaries:
`ClassificationService.generate_draft` returns an optional string and
swallows its own exceptions; `RAGService.generate_draft_with_context`
may itself raise (modelled by the outer `Option`), in which case the
engine falls back to the plain generator. -/

/-- Boundary outcomes for one execution of a rule's actions. -/
structure ExecBoundary where
  plainDraft : Option Str := none
  ragDraft : Option (Option Str) := none
  deriving DecidableEq, Repr

/-- The mutable state touched by `execute_rule_actions`: the email being
processed, the rule row (for the match counter), and the drafts table. -/
structure ExecState where
  email : EmailRow
  rule : RuleRow
  drafts : List DraftRow := []
  nextDraftId : Nat := 1
  deriving DecidableEq, Repr

/-- The `results` dict built by `execute_rule_actions`; a `false`/`none`
field models an absent key. -/
structure ExecResult where
  success : Bool := false
  classified : Bool := false
  marked_important : Bool := false
  draft_created : Bool := false
  draft_id : Option Nat := none
  forward_scheduled : Bool := false
  remind_scheduled : Bool := false
  failed : Bool := false
  deriving DecidableEq, Repr

/-- Subject given to a rule-generated draft:
`f"Re: {email.subject}" if email.subject else "回复"`. -/
def ruleDraftSubject (e : EmailRow) : Str :=
  if truthyS e.subject then "Re: ".data ++ e.subject.getD [] else "回复".data

/-- Tail of `execute_rule_actions` after the classify branch: the
mark-important, draft, forward and remind branches, then the
unconditional `crud.increment_rule_match_count`. -/
def execAfterClassify (b : ExecBoundary) (now : PyDatetime) (s : ExecState)
    (a : RuleActions) (classified : Bool) : ExecState × ExecResult :=
  let e2 :=
    if a.mark_important then { s.email with is_important := true } else s.email
  let draftBody : Option Str :=
    if a.generate_draft then
      if a.use_rag_context then
        match b.ragDraft with
        | some r => r
        | none => b.plainDraft
      else b.plainDraft
    else none
  let dcreated := truthyS draftBody
  let drafts' :=
    if truthyS draftBody then
      s.drafts ++ [{ id := s.nextDraftId, email_id := e2.id,
                     subject := some (ruleDraftSubject e2),
                     body := draftBody.getD [] : DraftRow }]
    else s.drafts
  let nextId' := if truthyS draftBody then s.nextDraftId + 1 else s.nextDraftId
  let did := if truthyS draftBody then some s.nextDraftId else none
  let fwd := (a.type == some raFORWARD) && truthyS a.forward_to
  let rem := (a.type == some raREMIND) && truthyI a.remind_after_hours
  let rule' := { s.rule with match_count := s.rule.match_count + 1,
                             last_matched_at := some now }
  ({ email := e2, rule := rule', drafts := drafts', nextDraftId := nextId' },
   { success := true, classified := classified, marked_important := a.mark_important,
     draft_created := dcreated, draft_id := did,
     forward_scheduled := fwd, remind_scheduled := rem })

/-- `RuleEngine.execute_rule_actions`.  An empty/absent `actions` object
returns a failure without side effects; an invalid `category` literal in
the classify branch raises `ValueError`, caught by the outer handler
before any mutation, again returning a failure without side effects.
`now` is `datetime.utcnow()` as read by `increment_rule_match_count`. -/
def execute_rule_actions (b : ExecBoundary) (now : PyDatetime)
    (s : ExecState) : ExecState × ExecResult :=
  match s.rule.actions with
  | none => (s, { failed := true })
  | some a =>
    if (a.type == some raCLASSIFY) && truthyS a.category then
      match parseCategory (a.category.getD []) with
      | none => (s, { failed := true })
      | some cat =>
        let e1 := { s.email with category := some cat,
                                 classification_confidence := some 90 }
        execAfterClassify b now { s with email := e1 } a true
    else execAfterClassify b now s a false

/-- Ordering used by `crud.get_rules`: priority descending, then
`created_at` descending. -/
def ruleBefore (a bb : RuleRow) : Prop :=
  bb.priority < a.priority ∨ (a.priority = bb.priority ∧ bb.created_at ≤ a.created_at)

instance : DecidableRel ruleBefore := fun a bb => by
  unfold ruleBefore; infer_instance

/-- Replace a rule row by id. -/
def replaceRule (rules : List RuleRow) (r' : RuleRow) : List RuleRow :=
  rules.map fun x => if x.id == r'.id then r' else x

/-- Database state seen by the rule-processing pass. -/
structure RulesRunState where
  email : EmailRow
  rules : List RuleRow := []
  drafts : List DraftRow := []
  nextDraftId : Nat := 1
  deriving DecidableEq, Repr

/-- `RuleEngine.process_email_with_rules`: evaluates every active rule
(ordered as by `crud.get_rules`) against the email and executes the
matching ones, collecting per-rule result dicts tagged with the rule id. -/
def process_email_with_rules (o : RegexOracle) (b : ExecBoundary)
    (now : PyDatetime) (st : RulesRunState) :
    RulesRunState × List (Nat × ExecResult) :=
  let active := (st.rules.filter (·.is_active)).insertionSort ruleBefore
  active.foldl
    (fun (p : RulesRunState × List (Nat × ExecResult)) rule =>
      if evaluate_rule o p.1.email rule then
        let (es, res) := execute_rule_actions b now
          ⟨p.1.email, rule, p.1.drafts, p.1.nextDraftId⟩
        ({ email := es.email, rules := replaceRule p.1.rules es.rule,
           drafts := es.drafts, nextDraftId := es.nextDraftId },
         p.2 ++ [(rule.id, res)])
      else p)
    (st, [])

/-! ## Data-access layer (`backend/db/crud.py`) -/

/-- Exceptions that cross the embedded boundaries. -/
inductive PyErr where
  | nameError
  | other
  deriving DecidableEq, Repr

/-- Outcome of a fallible call. -/
inductive Outcome (ε α : Type) where
  | err (e : ε)
  | ok (a : α)
  deriving DecidableEq, Repr

/-- `crud.get_email`: lookup by primary key. -/
def findEmail (emails : List EmailRow) (email_id : Nat) : Option EmailRow :=
  emails.find? fun e => e.id == email_id

/-- Replace an email row by id. -/
def replaceEmail (emails : List EmailRow) (email_id : Nat) (e' : EmailRow) :
    List EmailRow :=
  emails.map fun x => if x.id == email_id then e' else x

/-- The `**kwargs` patch accepted by `crud.update_email`; a `some` field
models the key being present in `kwargs`. -/
structure EmailPatch where
  subject : Option (Option Str) := none
  body_text : Option (Option Str) := none
  body_html : Option (Option Str) := none
  sender : Option (Option Str) := none
  sender_email : Option (Option Str) := none
  status : Option EmailStatus := none
  is_important : Option Bool := none
  deriving DecidableEq, Repr

/-- `setattr` loop of `crud.update_email`. -/
def applyPatch (p : EmailPatch) (e : EmailRow) : EmailRow :=
  { e with
    subject := p.subject.getD e.subject,
    body_text := p.body_text.getD e.body_text,
    body_html := p.body_html.getD e.body_html,
    sender := p.sender.getD e.sender,
    sender_email := p.sender_email.getD e.sender_email,
    status := p.status.getD e.status,
    is_important := p.is_important.getD e.is_important }

/-- `updated_fields & vector_content_fields` is non-empty. -/
def touchesVector (p : EmailPatch) : Bool :=
  p.subject.isSome || p.body_text.isSome || p.body_html.isSome ||
  p.sender.isSome || p.sender_email.isSome

/-- The patch used by the status-mutation endpoints. -/
def statusPatch (st : EmailStatus) : EmailPatch := { status := some st }

/-- `crud.update_email`.  The patch is applied and committed; when a
vector-content field was touched the function then enters
`try: VectorStoreService().update_email(email); log.debug(...)
except Exception: log.warning(...)` — but `crud.py` never imports `log`,
so whichever of the two paths is taken (the parameter
`vectorUpdateRaises` is the boundary outcome of the vector-store call),
the attempt to log raises an uncaught `NameError` after the commit. -/
def update_email (vectorUpdateRaises : Bool) (emails : List EmailRow)
    (email_id : Nat) (p : EmailPatch) :
    List EmailRow × Outcome PyErr (Option EmailRow) :=
  match findEmail emails email_id with
  | none => (emails, .ok none)
  | some e =>
    let e' := applyPatch p e
    let emails' := replaceEmail emails email_id e'
    if touchesVector p then
      let _ := vectorUpdateRaises
      (emails', .err .nameError)
    else (emails', .ok (some e'))

/-- Sort key used by `get_emails`' `order_by(desc(received_at))`. -/
def receivedKey (e : EmailRow) : Int :=
  match e.received_at with
  | some d => d.wall
  | none => 0

/-- `received_at` descending. -/
def receivedDesc (a bb : EmailRow) : Prop := receivedKey bb ≤ receivedKey a

instance : DecidableRel receivedDesc := fun a bb => by
  unfold receivedDesc; infer_instance

/-- SQL `column.contains(needle)` on a nullable column: a NULL value never
matches. -/
def colContains (col : Option Str) (needle : Str) : Bool :=
  match col with
  | some v => strContainsSub v needle
  | none => false

/-- `crud.get_emails`: filters (each guarded by Python truthiness of the
argument), with the `DELETED`-excluding default applied only when no
status filter is supplied; `total` is counted on the same filtered query
from which the page is taken. -/
def get_emails (emails : List EmailRow) (account_id : Option Nat)
    (status : Option EmailStatus) (category : Option Category)
    (sender : Option Str) (limit : Nat) (offset : Nat)
    (exclude_deleted : Bool) : List EmailRow × Nat :=
  let q : List EmailRow := emails
  let q : List EmailRow := match account_id with
    | some a => if a ≠ 0 then q.filter (fun e => e.account_id == a) else q
    | none => q
  let q : List EmailRow := match status with
    | some st => q.filter (fun e => e.status == st)
    | none =>
      if exclude_deleted then q.filter (fun e => e.status != EmailStatus.deleted)
      else q
  let q : List EmailRow := match category with
    | some c => q.filter (fun e => e.category == some c)
    | none => q
  let q : List EmailRow := match sender with
    | some s =>
      if s ≠ [] then
        q.filter (fun e => colContains e.sender s || colContains e.sender_email s)
      else q
    | none => q
  let total := q.length
  let items := ((q.insertionSort receivedDesc).drop offset).take limit
  (items, total)

/-- The single-pass filter equivalent to `get_emails`' query pipeline in
its default configuration (no status filter, `exclude_deleted = True`). -/
def defaultListPred (account_id : Option Nat) (category : Option Category)
    (sender : Option Str) (e : EmailRow) : Bool :=
  (match account_id with
   | some a => if a ≠ 0 then e.account_id == a else true
   | none => true) &&
  (e.status != EmailStatus.deleted) &&
  (match category with
   | some c => e.category == some c
   | none => true) &&
  (match sender with
   | some s =>
     if s ≠ [] then colContains e.sender s || colContains e.sender_email s
     else true
   | none => true)

/-- `crud.update_draft` restricted to the `is_sent` flag (the only patch
the draft-send endpoint performs). -/
def setDraftSent (drafts : List DraftRow) (draft_id : Nat) : List DraftRow :=
  drafts.map fun d => if d.id == draft_id then { d with is_sent := true } else d

/-- Draft lookup by primary key. -/
def findDraft (drafts : List DraftRow) (draft_id : Nat) : Option DraftRow :=
  drafts.find? fun d => d.id == draft_id

/-! ## Background task `process_email` (`backend/tasks/email_tasks.py`)

The classification service is a boundary: `classify_email` returns either
a `(category, confidence)` pair or `(None, None)` (disabled service,
provider failure, or parse fallback are all folded into the returned
pair). -/

/-- Boundary outcome of `ClassificationService.classify_email`. -/
abbrev ClassifyOutcome := Option (Category × Int)

/-- Database state visible to the task: the three tables it could touch. -/
structure TaskDB where
  emails : List EmailRow := []
  rules : List RuleRow := []
  logs : List LogRow := []
  deriving DecidableEq, Repr

/-- Return dict of the `process_email` task. -/
structure TaskResult where
  success : Bool
  classified : Bool := false
  category : Option Str := none
  notFound : Bool := false
  deriving DecidableEq, Repr

/-- The `process_email` Celery task: loads the email and, when it is
uncategorized or `force_classify` is set, runs the classification
boundary and commits a returned category/confidence pair.  This is the
whole task body — it touches neither the rules nor the logs table. -/
def process_email_task (c : ClassifyOutcome) (db : TaskDB) (email_id : Nat)
    (force_classify : Bool) : TaskDB × TaskResult :=
  match findEmail db.emails email_id with
  | none => (db, { success := false, notFound := true })
  | some e =>
    if e.category.isNone || force_classify then
      match c with
      | some (cat, conf) =>
        let e' := { e with category := some cat,
                           classification_confidence := some conf }
        ({ db with emails := replaceEmail db.emails email_id e' },
         { success := true, classified := true,
           category := some (categoryValue cat) })
      | none => (db, { success := true })
    else (db, { success := true })

/-! ## HTTP endpoints (`backend/api/routes_email/emails.py`,
`backend/api/routes_drafts.py`) -/

/-- An HTTP error response (`HTTPException` or the global 500 handler). -/
structure HttpErr where
  code : Nat
  deriving DecidableEq, Repr

/-- Result of a status-mutation endpoint. -/
structure MarkOut where
  emails : List EmailRow
  providerCalls : List Str
  resp : Outcome HttpErr Unit
  deriving DecidableEq, Repr

/-- `mark_as_read` endpoint: commits `status = READ` through
`crud.update_email`, then mirrors into Gmail (the account's provider is
necessarily `GMAIL`, the enum's only member).  The provider call is a
boundary: `.ok b` is `GmailService.mark_as_read` returning `b` (its
boolean result is discarded by the route), `.err` is the call raising,
which the global handler turns into a 500 after the commit. -/
def mark_as_read_ep (prov : Outcome PyErr Bool) (emails : List EmailRow)
    (email_id : Nat) : MarkOut :=
  match findEmail emails email_id with
  | none => ⟨emails, [], .err ⟨404⟩⟩
  | some e =>
    let emails' := (update_email false emails email_id (statusPatch .read)).1
    let call := "mark_as_read ".data ++ e.provider_message_id
    match prov with
    | .err _ => ⟨emails', [call], .err ⟨500⟩⟩
    | .ok _ => ⟨emails', [call], .ok ()⟩

/-- `mark_as_unread` endpoint (same shape as `mark_as_read_ep`). -/
def mark_as_unread_ep (prov : Outcome PyErr Bool) (emails : List EmailRow)
    (email_id : Nat) : MarkOut :=
  match findEmail emails email_id with
  | none => ⟨emails, [], .err ⟨404⟩⟩
  | some e =>
    let emails' := (update_email false emails email_id (statusPatch .unread)).1
    let call := "mark_as_unread ".data ++ e.provider_message_id
    match prov with
    | .err _ => ⟨emails', [call], .err ⟨500⟩⟩
    | .ok _ => ⟨emails', [call], .ok ()⟩

/-- `mark_as_important` endpoint: commits `is_important = True`, then
mirrors into Gmail. -/
def mark_as_important_ep (prov : Outcome PyErr Bool) (emails : List EmailRow)
    (email_id : Nat) : MarkOut :=
  match findEmail emails email_id with
  | none => ⟨emails, [], .err ⟨404⟩⟩
  | some e =>
    let emails' :=
      (update_email false emails email_id { is_important := some true }).1
    let call := "mark_as_important ".data ++ e.provider_message_id
    match prov with
    | .err _ => ⟨emails', [call], .err ⟨500⟩⟩
    | .ok _ => ⟨emails', [call], .ok ()⟩

/-- Result of the batch-delete endpoint. -/
structure BatchOut where
  emails : List EmailRow
  scheduledBatches : List (List Nat)
  resp : Outcome HttpErr Nat
  deriving DecidableEq, Repr

/-- `batch_delete_emails` endpoint: rejects an empty id list (400), then
validates that every id resolves to an email row — raising 404 before any
mutation if one does not — then flips every email to `DELETED` and
enqueues one `delete_emails_batch` job carrying the whole id list. -/
def batch_delete_emails_ep (emails : List EmailRow) (email_ids : List Nat) :
    BatchOut :=
  if email_ids.isEmpty then ⟨emails, [], .err ⟨400⟩⟩
  else if email_ids.any (fun i => (findEmail emails i).isNone) then
    ⟨emails, [], .err ⟨404⟩⟩
  else
    let emails' := email_ids.foldl
      (fun acc i => (update_email false acc i (statusPatch .deleted)).1) emails
    ⟨emails', [email_ids], .ok email_ids.length⟩

/-- Arguments of one `GmailService.send_message` call. -/
structure SendCall where
  toAddr : Option Str
  subject : Str
  body : Str
  thread_id : Option Str
  deriving DecidableEq, Repr

/-- Result of the draft-send endpoint. -/
structure SendOut where
  drafts : List DraftRow
  sendCalls : List SendCall
  resp : Outcome HttpErr Unit
  deriving DecidableEq, Repr

/-- Tables visible to the drafts router. -/
structure DraftsState where
  drafts : List DraftRow := []
  emails : List EmailRow := []
  deriving DecidableEq, Repr

/-- Subject passed to the provider:
`draft.subject or f"Re: {email.subject}"` (an f-string renders a `None`
subject as the text `None`). -/
def sendSubject (d : DraftRow) (e : EmailRow) : Str :=
  if truthyS d.subject then d.subject.getD []
  else "Re: ".data ++ (match e.subject with
    | some s => s
    | none => "None".data)

/-- `send_draft` endpoint (`routes_drafts.py`).  A missing draft is 404;
a draft with `is_sent` already true is rejected with 400 before anything
else happens.  Inside the subsequent `try`, a missing parent email raises
`HTTPException(404)`, which the route's own `except Exception` rewraps as
a 500.  Otherwise the provider send is attempted (boundary outcome: `.ok`
with the optional provider message id — the route ignores the value —
or `.err` for a raised exception, which becomes a 500 without marking the
draft sent); on a non-raising send the draft is committed as sent. -/
def send_draft_ep (sendOutcome : Outcome PyErr (Option Str))
    (st : DraftsState) (draft_id : Nat) : SendOut :=
  match findDraft st.drafts draft_id with
  | none => ⟨st.drafts, [], .err ⟨404⟩⟩
  | some d =>
    if d.is_sent then ⟨st.drafts, [], .err ⟨400⟩⟩
    else
      match findEmail st.emails d.email_id with
      | none => ⟨st.drafts, [], .err ⟨500⟩⟩
      | some e =>
        let call : SendCall :=
          ⟨e.sender_email, sendSubject d e, d.body, e.thread_id⟩
        match sendOutcome with
        | .err _ => ⟨st.drafts, [call], .err ⟨500⟩⟩
        | .ok _ => ⟨setDraftSent st.drafts draft_id, [call], .ok ()⟩

/-! ## Embedding and vector store
(`backend/services/embedding_service.py`,
`backend/services/vector_store.py`)

The pgvector similarity search is a boundary, abstracted as a function
from query text and requested count to a ranked document list. -/

/-- Configured `RAG_TOP_K` default (`config.py`). -/
def RAG_TOP_K : Nat := 5

/-- A LangChain document as stored for an email: page content plus the
metadata fields read back by the routes (`email_id` is absent only for
foreign documents). -/
structure VDoc where
  email_id : Option Nat
  page_content : Str
  subject : Option Str := none
  sender : Option Str := none
  deriving DecidableEq, Repr

/-- Boundary for `PGVector.similarity_search_with_score(query, k)`:
query text and `k` to ranked documents. -/
abbrev VecStore := Str → Nat → List VDoc

/-- `EmbeddingService._build_email_text`: subject line, sender line and a
2000-character body excerpt, joined by newlines. -/
def build_email_text (e : EmailRow) : Str :=
  let parts : List Str :=
    (if truthyS e.subject then ["Subject: ".data ++ e.subject.getD []] else []) ++
    (if truthyS e.sender || truthyS e.sender_email then
      ["From: ".data ++ pyOr2 e.sender e.sender_email] else []) ++
    (if truthyS e.body_text then
      ["Body: ".data ++ (e.body_text.getD []).take 2000]
     else if truthyS e.body_html then
      ["Body: ".data ++ (e.body_html.getD []).take 2000]
     else [])
  List.intercalate ['\n'] parts

/-- `EmbeddingService.create_document`: the email's text with metadata
keyed by the email's own id. -/
def create_document (e : EmailRow) : VDoc :=
  { email_id := some e.id, page_content := build_email_text e,
    subject := e.subject, sender := e.sender_email }

/-- A hit is kept by the database validation pass iff its `email_id`
metadata resolves to a non-`DELETED` email row. -/
def validHit (rows : List EmailRow) (d : VDoc) : Bool :=
  match d.email_id with
  | some i =>
    (rows.find? fun e => e.id == i && e.status != EmailStatus.deleted).isSome
  | none => false

/-- `VectorStoreService.search_similar_emails` (no metadata filter, as in
every call reached from the claims' paths): over-fetches 2×k when a
database session is supplied and post-filters deleted/stale hits,
otherwise returns the store's ranking as is. -/
def search_similar_emails (store : VecStore) (query : Str) (k : Option Nat)
    (db : Option (List EmailRow)) : List VDoc :=
  let k := pyOrNat k RAG_TOP_K
  let search_k := if db.isSome then k * 2 else k
  let results := store query search_k
  match db with
  | some rows => (results.filter (validHit rows)).take k
  | none => results

/-- `VectorStoreService.get_email_context`: searches with the email's own
derived text, over-fetching by one, then drops every hit whose `email_id`
metadata equals the seed email's id and truncates to the requested `k`
(falling back to `RAG_TOP_K` when `k` is falsy). -/
def get_email_context (store : VecStore) (e : EmailRow) (k : Option Nat)
    (db : Option (List EmailRow)) : List VDoc :=
  let search_k := pyOrNat k RAG_TOP_K + 1
  let results := search_similar_emails store (build_email_text e) (some search_k) db
  let filtered := results.filter fun d => d.email_id != some e.id
  match k with
  | some n => if n ≠ 0 then filtered.take n else filtered.take RAG_TOP_K
  | none => filtered.take RAG_TOP_K

/-! ## Concrete fixtures used by witnesses and counterexamples -/

/-- Regex oracle used at concrete inputs (no rule below carries a regex
operator, so any oracle gives the same answers; this one models an engine
that rejects every pattern). -/
def oracle0 : RegexOracle := fun _ _ => none

/-- A fixed `datetime.utcnow()` reading. -/
def now0 : PyDatetime := dtAt 2024 6 2 none

/-- An unread, uncategorized email from the boss. -/
def emailBoss : EmailRow :=
  { id := 1, account_id := 1, provider_message_id := "m1".data,
    thread_id := some ("t1".data),
    subject := some ("Weekly report".data),
    sender := some ("Boss".data),
    sender_email := some ("boss@example.com".data),
    body_text := some ("please review".data),
    received_at := some (dtAt 2024 6 1 (some 0)) }

/-- An active rule whose sender condition matches `emailBoss`. -/
def ruleBoss : RuleRow :=
  { id := 1, name := "boss rule".data,
    conditions := some { sender := some { contains := some ("boss".data) } },
    actions := some { mark_important := true } }

/-- Task-database fixture for the C1 counterexample: one matching active
rule, an empty log table. -/
def db1 : TaskDB := { emails := [emailBoss], rules := [ruleBoss] }

/-- A read email used by list/update fixtures. -/
def emailRead : EmailRow :=
  { id := 2, account_id := 1, provider_message_id := "m2".data,
    subject := some ("kept".data), status := .read,
    received_at := some (dtAt 2024 5 1 (some 0)) }

/-- A soft-deleted email. -/
def emailGone : EmailRow :=
  { id := 3, account_id := 1, provider_message_id := "m3".data,
    subject := some ("gone".data), status := .deleted,
    received_at := some (dtAt 2024 5 2 (some 0)) }

/-- `date_range` condition with a `Z`-suffixed `after` bound. -/
def condAfterZ : Option DateCond :=
  some { after := some ("2024-01-01T00:00:00Z".data) }

/-- `date_range` condition with a naive (offset-free) `after` bound. -/
def condAfterNaive : Option DateCond :=
  some { after := some ("2024-01-01T00:00:00".data) }

/-- `date_range` condition with an unparsable `after` bound. -/
def condAfterBad : Option DateCond :=
  some { after := some ("not-a-date".data) }

/-- An email received on 2024-06-01 (timezone-aware, as the
`DateTime(timezone=True)` column yields). -/
def emailJune : EmailRow :=
  { id := 4, account_id := 1, provider_message_id := "m4".data,
    received_at := some (dtAt 2024 6 1 (some 0)) }

/-- An email received on 2023-12-01 (timezone-aware). -/
def emailDec : EmailRow :=
  { id := 5, account_id := 1, provider_message_id := "m5".data,
    received_at := some (dtAt 2023 12 1 (some 0)) }

/-- Rule with both a sender and a subject condition (C4 fixture). -/
def ruleBoth : RuleRow :=
  { id := 2, name := "both".data,
    conditions := some
      { sender := some { contains := some ("alice".data) },
        subject := some { contains := some ("report".data) } } }

/-- Satisfies only the sender condition of `ruleBoth`. -/
def emailOnlySender : EmailRow :=
  { id := 6, account_id := 1, provider_message_id := "m6".data,
    sender_email := some ("alice@example.com".data),
    subject := some ("hello".data) }

/-- Satisfies only the subject condition of `ruleBoth`. -/
def emailOnlySubject : EmailRow :=
  { id := 7, account_id := 1, provider_message_id := "m7".data,
    sender_email := some ("bob@example.com".data),
    subject := some ("Monthly report".data) }

/-- Satisfies both conditions of `ruleBoth`. -/
def emailBothConds : EmailRow :=
  { id := 8, account_id := 1, provider_message_id := "m8".data,
    sender_email := some ("alice@example.org".data),
    subject := some ("Quarterly report".data) }

/-- Patch touching the `subject` vector-content field (C5 fixture). -/
def subjPatch : EmailPatch := { subject := some (some ("New subject".data)) }

/-- Rule whose actions object is non-empty but applies no listed action:
`type` is `FORWARD` yet `forward_to` is absent (C9 fixture). -/
def ruleFwdOnly : RuleRow :=
  { id := 3, name := "fwd".data, actions := some { type := some raFORWARD } }

/-- Execution-state fixture for the C9 counterexample. -/
def execSt0 : ExecState := { email := emailRead, rule := ruleFwdOnly }

/-- A sent draft (C7 fixture). -/
def draftSent : DraftRow :=
  { id := 1, email_id := 2, subject := some ("Re: kept".data),
    body := "thanks".data, is_sent := true }

/-- Drafts-router state fixture. -/
def draftsSt0 : DraftsState := { drafts := [draftSent], emails := [emailRead] }

/-- Characterization of when `execute_rule_actions` reaches its final
`increment_rule_match_count` call: the rule has a truthy `actions` object
and the classify branch does not raise a `ValueError` on an invalid
category literal.  Notably this does not require any listed action to
actually apply. -/
def execBumps (r : RuleRow) : Bool :=
  match r.actions with
  | none => false
  | some a =>
    !((a.type == some raCLASSIFY) && truthyS a.category &&
      (parseCategory (a.category.getD [])).isNone)

/-! ## Helper lemmas -/

/-- Fusion of two successive `filter` passes into one conjunction, in the
orientation produced by the `get_emails` query pipeline. -/
theorem filter_fuse (p q : α → Bool) (l : List α) :
    (l.filter p).filter q = l.filter fun a => p a && q a := by
  induction l with
  | nil => rfl
  | cons a t ih =>
    cases hp : p a <;> cases hq : q a <;>
      simp [List.filter_cons, hp, hq, ih]

/-- In its default configuration (no status filter, deleted excluded) the
`get_emails` pipeline is the single-pass `defaultListPred` filter: the
page is a window of the sorted filtered list and `total` is its length. -/
theorem get_emails_default_eq (emails : List EmailRow)
    (account_id : Option Nat) (category : Option Category)
    (sender : Option Str) (limit offset : Nat) :
    get_emails emails account_id none category sender limit offset true =
      ((((emails.filter
            (defaultListPred account_id category sender)).insertionSort
              receivedDesc).drop offset).take limit,
       (emails.filter (defaultListPred account_id category sender)).length) := by
  unfold get_emails defaultListPred
  rcases account_id with _ | a <;> rcases category with _ | c <;>
    rcases sender with _ | s
  all_goals try by_cases ha : a = 0
  all_goals try by_cases hs : s = []
  all_goals simp [filter_fuse, Bool.and_assoc, -List.filter_filter]
  all_goals first
    | (simp [ha, hs, filter_fuse, Bool.and_assoc, -List.filter_filter])
    | (simp [ha, filter_fuse, Bool.and_assoc, -List.filter_filter])
    | (simp [hs, filter_fuse, Bool.and_assoc, -List.filter_filter])

/-! ## Claim theorems -/

/-- Claim C1 (counterexample): the spec says the process-email task, after
the conditional classification step, always runs the rule engine and
persists a summary log entry.  At this concrete input an active rule
(`ruleBoss`) matches the stored email, and running the rule engine on it
would have produced one rule outcome — yet the task leaves the whole
database (rules, logs, even the email) unchanged: no rule is executed and
no log entry is persisted. -/
theorem C1_task_skips_rule_engine_counterexample :
    evaluate_rule oracle0 emailBoss ruleBoss = true ∧
    process_email_task none db1 1 false = (db1, { success := true }) ∧
    (process_email_with_rules oracle0 {} now0
        { email := emailBoss, rules := [ruleBoss] }).2.length = 1 ∧
    db1.logs = [] := by
  refine ⟨by decide, by decide, by decide, rfl⟩

/-- Claim C1 (amended): the process-email background task performs only
the conditional classification step; it never invokes the rule engine and
never persists a log entry — for every classification outcome and every
database state, the rules and logs tables are returned unchanged. -/
theorem C1_amended_task_preserves_rules_and_logs (c : ClassifyOutcome)
    (db : TaskDB) (email_id : Nat) (force_classify : Bool) :
    (process_email_task c db email_id force_classify).1.rules = db.rules ∧
    (process_email_task c db email_id force_classify).1.logs = db.logs := by
  rcases hf : findEmail db.emails email_id with _ | e
  · simp [process_email_task, hf]
  · by_cases hc : (e.category.isNone || force_classify) = true
    · rcases c with _ | p <;> simp [process_email_task, hf, hc]
    · simp [process_email_task, hf, hc]

/-- Claim C2: with no status filter, `crud.get_emails` (as called by the
list route, i.e. with the `exclude_deleted` default) returns exactly the
emails whose status is not `DELETED`, subject to the other filters and
pagination: `total` is the size of the `DELETED`-excluding filtered set,
every returned item is non-`DELETED`, and a page large enough to hold the
whole result is a permutation of that filtered set. -/
theorem C2_default_list_excludes_deleted (emails : List EmailRow)
    (account_id : Option Nat) (category : Option Category)
    (sender : Option Str) (limit offset : Nat) :
    (get_emails emails account_id none category sender limit offset true).2 =
      (emails.filter (defaultListPred account_id category sender)).length ∧
    (∀ e ∈ (get_emails emails account_id none category sender limit offset true).1,
        e.status ≠ .deleted) ∧
    (offset = 0 →
      (emails.filter (defaultListPred account_id category sender)).length ≤ limit →
      (get_emails emails account_id none category sender limit offset true).1.Perm
        (emails.filter (defaultListPred account_id category sender))) := by
  rw [get_emails_default_eq]
  refine ⟨rfl, ?_, ?_⟩
  · intro e he
    have h1 := List.mem_of_mem_take he
    have h2 := List.mem_of_mem_drop h1
    have h3 := (List.perm_insertionSort receivedDesc _).mem_iff.mp h2
    have h4 := (List.mem_filter.mp h3).2
    simp only [defaultListPred, Bool.and_eq_true, bne_iff_ne, ne_eq] at h4
    exact h4.1.1.2
  · intro hoff hlim
    subst hoff
    rw [List.drop_zero,
        List.take_of_length_le
          (by rw [(List.perm_insertionSort receivedDesc _).length_eq]; exact hlim)]
    exact List.perm_insertionSort receivedDesc _

/-- Claim C2 (witness): at a concrete store holding one `READ` and one
`DELETED` email, the default list call returns a permutation of the
non-deleted subset with a matching total. -/
theorem C2_default_list_excludes_deleted_witness :
    (get_emails [emailRead, emailGone] none none none none 50 0 true).2 =
      ([emailRead, emailGone].filter (defaultListPred none none none)).length ∧
    (get_emails [emailRead, emailGone] none none none none 50 0 true).1.Perm
      ([emailRead, emailGone].filter (defaultListPred none none none)) := by
  have h := C2_default_list_excludes_deleted [emailRead, emailGone]
    none none none 50 0
  exact ⟨h.1, h.2.2 rfl (by decide)⟩

/-- Claim C3 (code-bug evaluation): with
`date_range.after = "2024-01-01T00:00:00Z"` the bound parses (after the
`Z` replacement) to an offset-aware datetime, while `received_at` has its
timezone stripped, so the comparison raises `TypeError`, which the
engine's `except (ValueError, TypeError): pass` swallows — the bound is
silently ignored.  Hence the 2024-06-01 email passes (as the spec says)
but the 2023-12-01 email also passes, contradicting the spec.  With a
naive bound (`"2024-01-01T00:00:00"`) the check behaves as specified, and
an unparsable bound is ignored (as the spec says). -/
theorem C3_date_range_z_bound_ignored :
    check_date_range_condition emailJune condAfterZ = true ∧
    check_date_range_condition emailDec condAfterZ = true ∧
    check_date_range_condition emailJune condAfterNaive = true ∧
    check_date_range_condition emailDec condAfterNaive = false ∧
    check_date_range_condition emailJune condAfterBad = true ∧
    check_date_range_condition emailDec condAfterBad = true := by
  refine ⟨by decide, by decide, by decide, by decide, by decide, by decide⟩

/-- Claim C4: `evaluate_rule` is the conjunction, over the condition
groups present in the rule's `conditions` object, of the group checks
(for an active rule); a group that is absent or empty is vacuously true,
and a rule whose `conditions` object is absent or empty (the `none` case
of the characterization) never matches.  Concretely, a rule with both a
`sender.contains` and a `subject.contains` condition does not match an
email satisfying only one of the two, and matches one satisfying both. -/
theorem C4_rule_matching_conjunctive :
    (∀ (o : RegexOracle) (email : EmailRow) (rule : RuleRow),
      evaluate_rule o email rule =
        (rule.is_active &&
          match rule.conditions with
          | none => false
          | some c =>
            check_sender_condition o email c.sender &&
            check_subject_condition o email c.subject &&
            check_body_condition o email c.body &&
            check_date_range_condition email c.date_range)) ∧
    (∀ (o : RegexOracle) (email : EmailRow),
      check_sender_condition o email none = true ∧
      check_subject_condition o email none = true ∧
      check_body_condition o email none = true ∧
      check_date_range_condition email none = true) ∧
    evaluate_rule oracle0 emailOnlySender ruleBoth = false ∧
    evaluate_rule oracle0 emailOnlySubject ruleBoth = false ∧
    evaluate_rule oracle0 emailBothConds ruleBoth = true := by
  refine ⟨?_, ?_, by decide, by decide, by decide⟩
  · intro o email rule
    rcases hC : rule.conditions with _ | c
    · cases hA : rule.is_active <;> simp [evaluate_rule, hA, hC]
    · cases hA : rule.is_active
      · simp [evaluate_rule, hA, hC]
      · simp only [evaluate_rule, hA, hC]
        cases h1 : check_sender_condition o email c.sender <;>
          cases h2 : check_subject_condition o email c.subject <;>
          cases h3 : check_body_condition o email c.body <;>
          cases h4 : check_date_range_condition email c.date_range <;>
          simp [h1, h2, h3, h4]
  · intro o email
    exact ⟨rfl, rfl, rfl, rfl⟩

/-- Claim C5 (code-bug evaluation): `crud.update_email` on an existing
email with a patch touching a vector-content field (`subject`) raises an
uncaught `NameError` — `crud.py` never imports `log`, so both the
post-update `log.debug` and the exception handler's `log.warning` hit an
undefined name — instead of logging the vector-store failure and
returning the updated email.  This happens whether the vector-store call
itself raises (`true`) or returns (`false`); the field patch is
nonetheless already committed when the error propagates. -/
theorem C5_update_email_raises_nameerror :
    (update_email true [emailRead] 2 subjPatch).2 = .err .nameError ∧
    (update_email false [emailRead] 2 subjPatch).2 = .err .nameError ∧
    (update_email true [emailRead] 2 subjPatch).1 =
      [{ emailRead with subject := some ("New subject".data) }] := by
  refine ⟨by decide, by decide, by decide⟩

/-- Claim C6: if any id in a batch-delete request does not resolve to an
email row, the endpoint returns 404 with the stored emails unchanged and
no deletion job scheduled — validation happens before any mutation. -/
theorem C6_batch_delete_validates_before_mutation (emails : List EmailRow)
    (email_ids : List Nat) (i : Nat) (hmem : i ∈ email_ids)
    (hmiss : findEmail emails i = none) :
    batch_delete_emails_ep emails email_ids = ⟨emails, [], .err ⟨404⟩⟩ := by
  have hne : email_ids.isEmpty = false := by
    cases email_ids with
    | nil => cases hmem
    | cons _ _ => rfl
  have hany : email_ids.any (fun j => (findEmail emails j).isNone) = true :=
    List.any_eq_true.mpr ⟨i, hmem, by simp [hmiss]⟩
  simp [batch_delete_emails_ep, hne, hany]

/-- Claim C6 (witness): a concrete batch containing one existing and one
unknown id is rejected with 404, leaving the store untouched and
scheduling nothing. -/
theorem C6_batch_delete_validates_before_mutation_witness :
    batch_delete_emails_ep [emailRead] [2, 99] = ⟨[emailRead], [], .err ⟨404⟩⟩ :=
  C6_batch_delete_validates_before_mutation [emailRead] [2, 99] 99
    (by decide) (by decide)

/-- Claim C7: sending a draft whose `is_sent` flag is already true is
rejected with HTTP 400 before any provider call: no send is attempted and
the drafts table is returned unchanged, for every provider outcome. -/
theorem C7_send_draft_rejects_double_send (b : Outcome PyErr (Option Str))
    (st : DraftsState) (draft_id : Nat) (d : DraftRow)
    (hfind : findDraft st.drafts draft_id = some d)
    (hsent : d.is_sent = true) :
    send_draft_ep b st draft_id = ⟨st.drafts, [], .err ⟨400⟩⟩ := by
  simp [send_draft_ep, hfind, hsent]

/-- Claim C7 (witness): the concrete already-sent draft is rejected with
400 and no provider send call. -/
theorem C7_send_draft_rejects_double_send_witness :
    send_draft_ep (.ok (some ("id".data))) draftsSt0 1 =
      ⟨draftsSt0.drafts, [], .err ⟨400⟩⟩ :=
  C7_send_draft_rejects_double_send _ draftsSt0 1 draftSent (by decide) rfl

/-- Claim C8: for every vector-store ranking (even one that ranks the
seed email's own document first), every requested `k` and optional
database validation session, the email-context retrieval never returns a
document whose `email_id` metadata is the seed email's id, and the result
is truncated to the requested `k` (with the configured top-k default when
`k` is falsy) after that exclusion. -/
theorem C8_email_context_excludes_seed (store : VecStore) (e : EmailRow)
    (k : Option Nat) (db : Option (List EmailRow)) :
    (get_email_context store e k db).all
      (fun d => d.email_id != some e.id) = true ∧
    (get_email_context store e k db).length ≤ pyOrNat k RAG_TOP_K := by
  have hall : ∀ (l : List VDoc) (n : Nat),
      ((l.filter fun d => d.email_id != some e.id).take n).all
        (fun d => d.email_id != some e.id) = true := by
    intro l n
    refine List.all_eq_true.mpr fun d hd => ?_
    have := List.mem_of_mem_take hd
    simpa using (List.mem_filter.mp this).2
  have hlen : ∀ (l : List VDoc) (n : Nat), (l.take n).length ≤ n := by
    intro l n
    rw [List.length_take]
    exact Nat.min_le_left _ _
  rcases k with _ | n
  · exact ⟨hall _ _, by simp [get_email_context, pyOrNat]⟩
  · by_cases hn : n = 0
    · subst hn
      exact ⟨hall _ _, by simp [get_email_context, pyOrNat]⟩
    · constructor
      · simpa [get_email_context, hn] using hall
          (search_similar_emails store (build_email_text e)
            (some (pyOrNat (some n) RAG_TOP_K + 1)) db) n
      · simp [get_email_context, pyOrNat, hn]

/-- Claim C9 (counterexample): a rule whose `actions` object is non-empty
but applies no listed action — `type` is `FORWARD` with no `forward_to`
address — still has its match counter bumped from 0 to 1 and its
execution reported successful, with every per-action result flag false. -/
theorem C9_bump_without_action_counterexample :
    (execute_rule_actions {} now0 execSt0).1.rule.match_count = 1 ∧
    execSt0.rule.match_count = 0 ∧
    (execute_rule_actions {} now0 execSt0).2 = { success := true } := by
  refine ⟨by decide, by decide, by decide⟩

/-- Claim C9 (amended): the rule's `match_count` is incremented and
`last_matched_at` stamped exactly once per execution precisely when the
`actions` object is truthy and the execution raises no error (`execBumps`)
— independently of whether any listed action actually applied — and the
execution's reported success coincides with that same condition; an
absent/empty `actions` object, or a `ValueError` from an invalid classify
category, leaves the counter and timestamp untouched. -/
theorem C9_amended_bump_characterization (b : ExecBoundary)
    (now : PyDatetime) (s : ExecState) :
    (execute_rule_actions b now s).1.rule.match_count =
      s.rule.match_count + (if execBumps s.rule then 1 else 0) ∧
    (execute_rule_actions b now s).1.rule.last_matched_at =
      (if execBumps s.rule then some now else s.rule.last_matched_at) ∧
    (execute_rule_actions b now s).2.success = execBumps s.rule := by
  rcases hact : s.rule.actions with _ | a
  · simp [execute_rule_actions, execBumps, hact]
  · by_cases hg : ((a.type == some raCLASSIFY) && truthyS a.category) = true
    · rcases hp : parseCategory (a.category.getD []) with _ | cat
      · simp [execute_rule_actions, execBumps, hact, hg, hp]
      · simp [execute_rule_actions, execAfterClassify, execBumps, hact, hg, hp]
    · simp [execute_rule_actions, execAfterClassify, execBumps, hact, hg]

/-- Claim C10: each of the mark-read, mark-unread and mark-important
endpoints commits its database change through `crud.update_email` before
the Gmail mirror call is attempted (the account's provider is `GMAIL`,
the enum's only member, so the non-Gmail 400 branch is unreachable): for
every provider outcome the returned store carries the committed change,
and when the provider call raises, the endpoint answers with an error
(500 via the global handler) while the committed change stands — local
row and provider can diverge. -/
theorem C10_mark_endpoints_commit_before_mirror (emails : List EmailRow)
    (email_id : Nat) (e : EmailRow) (pe : PyErr)
    (hfind : findEmail emails email_id = some e) :
    (∀ prov, (mark_as_read_ep prov emails email_id).emails =
      replaceEmail emails email_id { e with status := .read }) ∧
    (mark_as_read_ep (.err pe) emails email_id).resp = .err ⟨500⟩ ∧
    (∀ prov, (mark_as_unread_ep prov emails email_id).emails =
      replaceEmail emails email_id { e with status := .unread }) ∧
    (mark_as_unread_ep (.err pe) emails email_id).resp = .err ⟨500⟩ ∧
    (∀ prov, (mark_as_important_ep prov emails email_id).emails =
      replaceEmail emails email_id { e with is_important := true }) ∧
    (mark_as_important_ep (.err pe) emails email_id).resp = .err ⟨500⟩ := by
  refine ⟨?_, ?_, ?_, ?_, ?_, ?_⟩
  · intro prov
    cases prov <;>
      simp [mark_as_read_ep, update_email, hfind, applyPatch, statusPatch,
        touchesVector]
  · simp [mark_as_read_ep, hfind]
  · intro prov
    cases prov <;>
      simp [mark_as_unread_ep, update_email, hfind, applyPatch, statusPatch,
        touchesVector]
  · simp [mark_as_unread_ep, hfind]
  · intro prov
    cases prov <;>
      simp [mark_as_important_ep, update_email, hfind, applyPatch,
        touchesVector]
  · simp [mark_as_important_ep, hfind]

/-- Claim C10 (witness): at a concrete store, the committed status change
survives both a provider success and a raised provider call, and the
raised call yields an error response. -/
theorem C10_mark_endpoints_commit_before_mirror_witness :
    (mark_as_read_ep (.ok true) [emailRead] 2).emails =
      replaceEmail [emailRead] 2 { emailRead with status := .read } ∧
    (mark_as_read_ep (.err .other) [emailRead] 2).resp = .err ⟨500⟩ ∧
    (mark_as_important_ep (.err .other) [emailRead] 2).resp = .err ⟨500⟩ := by
  have h := C10_mark_endpoints_commit_before_mirror [emailRead] 2 emailRead
    .other (by decide)
  exact ⟨h.1 _, h.2.1, h.2.2.2.2.2⟩
